import Mathlib

/-!
# ESP8266 climate sensor: the sampling pass, the metrics page and the 404 page

A shallow embedding of `src/main.cpp`.  The static variables of the sketch are
the record `Readings`; every function that touches them takes the record and
returns the updated one.  One call of a vendor driver is represented by the
values that call hands back (`BH1750`, `Adafruit_SGP30`, `SHT3X`); the request
being served by the web server is the record `WebServer`.

`uint16_t` and `uint8_t` values are natural numbers, reduced modulo `2^16`
and `2^8` where the sketch stores them.  A `float` is kept as its bit pattern
and is only ever copied; its text form `String(float)` comes from the Arduino
core and is a field of `Config`.
-/

namespace ClimateSensor

/-! ## Data model -/

/-- A `float`, held as its IEEE-754 single precision bit pattern. -/
structure FloatVal where
  bits : Nat
deriving DecidableEq, Repr

/-- Configuration constants and platform services read by the page generator:
`deviceHostname` (line 12), `WiFi.macAddress()` and the Arduino conversion
`String(float)`. -/
structure Config where
  deviceHostname : String
  macAddress : String
  floatToString : FloatVal → String

/-- The static variables of lines 32-36. -/
structure Readings where
  light_level_reading : Nat
  eco2_reading : Nat
  tvoc_reading : Nat
  temperature_reading : FloatVal
  humidity_reading : FloatVal
deriving DecidableEq, Repr

/-- What one call of `lightMeter.readLightLevel()` returns. -/
structure BH1750 where
  readLightLevel : Nat
deriving DecidableEq, Repr

/-- What one call of `sgp30.IAQmeasure()` returns, with the members `eCO2` and
`TVOC` as they stand after the call. -/
structure Adafruit_SGP30 where
  IAQmeasure : Bool
  eCO2 : Nat
  TVOC : Nat
deriving DecidableEq, Repr

/-- What one call of `sht30.get()` returns (0 means success), with the members
`cTemp`, `fTemp` and `humidity` as they stand after the call. -/
structure SHT3X where
  get : Nat
  cTemp : FloatVal
  fTemp : FloatVal
  humidity : FloatVal
deriving DecidableEq, Repr

/-- The three sensors as they answer during one sampling pass. -/
structure Sensors where
  lightMeter : BH1750
  sgp30 : Adafruit_SGP30
  sht30 : SHT3X
deriving DecidableEq, Repr

/-- Conversion to `uint16_t`. -/
def uint16 (n : Nat) : Nat := n % 65536

/-- Conversion to `uint8_t`. -/
def uint8 (n : Nat) : Nat := n % 256

/-! ## Sensor readers (lines 151-239) -/

/-- `uint16_t takeLightReading()`, lines 151-162. -/
def takeLightReading (st : Readings) (lightMeter : BH1750) : Nat × Readings :=
  let st := { st with light_level_reading := uint16 lightMeter.readLightLevel }
  (st.light_level_reading, st)

/-- `bool takeAirReading()`, lines 164-184. -/
def takeAirReading (st : Readings) (sgp30 : Adafruit_SGP30) : Bool × Readings :=
  if sgp30.IAQmeasure then
    let st := { st with eco2_reading := uint16 sgp30.eCO2 }
    let st := { st with tvoc_reading := uint16 sgp30.TVOC }
    (true, st)
  else
    (false, st)

/-- `bool takeClimateReading(bool temp_in_c)`, lines 186-212. -/
def takeClimateReading (temp_in_c : Bool) (st : Readings) (sht30 : SHT3X) : Bool × Readings :=
  if sht30.get = 0 then
    let st :=
      if temp_in_c then { st with temperature_reading := sht30.cTemp }
      else { st with temperature_reading := sht30.fTemp }
    let st := { st with humidity_reading := sht30.humidity }
    (true, st)
  else
    (false, st)

/-- `uint8_t takeAllReadings(bool temp_in_c)`, lines 214-239.  The returned
status is `(sgp30Status << 1) | sht30Status`. -/
def takeAllReadings (temp_in_c : Bool) (st : Readings) (hw : Sensors) : Nat × Readings :=
  let (_, st) := takeLightReading st hw.lightMeter
  let (sgp30Status, st) := takeAirReading st hw.sgp30
  let (sht30Status, st) := takeClimateReading temp_in_c st hw.sht30
  (uint8 ((sgp30Status.toNat <<< 1) ||| sht30Status.toNat), st)

/-! ## The metrics page (lines 272-308) -/

/-- The device identifier string of line 289. -/
def idString (cfg : Config) : String :=
  "\x7bid=\"" ++ cfg.deviceHostname ++ "\",mac=\"" ++ cfg.macAddress ++ "\"\x7d"

/-- The formatting step of `generateDataPage`: lines 288-289 and 292-307, with
the status of line 290 as an argument. -/
def formatDataPage (cfg : Config) (st : Readings) (sensorStatus : Nat) : String :=
  let message := ""
  let idString := idString cfg
  let message := message ++ ("light" ++ idString ++ toString st.light_level_reading ++ "\n")
  let message :=
    if sensorStatus &&& 1 ≠ 0 then
      let message := message ++ ("eco2" ++ idString ++ toString st.eco2_reading ++ "\n")
      message ++ ("tvoc" ++ idString ++ toString st.tvoc_reading ++ "\n")
    else
      let message := message ++ ("eco2" ++ idString ++ "FAILED\n")
      message ++ ("tvoc" ++ idString ++ "FAILED\n")
  let message :=
    if sensorStatus &&& (1 <<< 1) ≠ 0 then
      let message := message ++ ("temp" ++ idString ++ cfg.floatToString st.temperature_reading ++ "\n")
      message ++ ("humid" ++ idString ++ cfg.floatToString st.humidity_reading ++ "\n")
    else
      let message := message ++ ("temp" ++ idString ++ "FAILED\n")
      message ++ ("humid" ++ idString ++ "FAILED\n")
  message

/-- `String generateDataPage()`, lines 272-308: one sampling pass with the
default argument `temp_in_c = false`, then the formatting step.  Returns the
page and the static variables after the pass. -/
def generateDataPage (cfg : Config) (st : Readings) (hw : Sensors) : String × Readings :=
  let (sensorStatus, st) := takeAllReadings false st hw
  (formatDataPage cfg st sensorStatus, st)

/-! ## The 404 page (lines 251-270) -/

/-- Request methods of the web server library. -/
inductive HTTPMethod where
  | HTTP_ANY | HTTP_GET | HTTP_HEAD | HTTP_POST | HTTP_PUT | HTTP_PATCH | HTTP_DELETE
  | HTTP_OPTIONS
deriving DecidableEq, Repr

/-- The request currently being served, as the handler sees it through
`server.uri()`, `server.method()`, `server.args()`, `server.argName(i)` and
`server.arg(i)`. -/
structure WebServer where
  uri : String
  method : HTTPMethod
  currentArgs : List (String × String)

/-- `server.args()`. -/
def WebServer.args (server : WebServer) : Nat := server.currentArgs.length

/-- `server.argName(i)`; the empty string when `i` is out of range. -/
def WebServer.argName (server : WebServer) (i : Nat) : String :=
  match server.currentArgs.get? i with
  | some a => a.1
  | none => ""

/-- `server.arg(i)`; the empty string when `i` is out of range. -/
def WebServer.arg (server : WebServer) (i : Nat) : String :=
  match server.currentArgs.get? i with
  | some a => a.2
  | none => ""

/-- The arguments of one `server.send(code, content_type, content)` call. -/
structure Sent where
  code : Nat
  content_type : String
  content : String
deriving DecidableEq, Repr

/-- The `for` loop of lines 266-268, entered with counter `i`. -/
def HandleNotFound.loop (server : WebServer) (i : Nat) (message : String) : String :=
  if i < server.args then
    HandleNotFound.loop server (i + 1)
      (message ++ (" " ++ server.argName i ++ ": " ++ server.arg i ++ "\n"))
  else
    message
termination_by server.args - i

/-- `void HandleNotFound()`, lines 251-270. -/
def HandleNotFound (server : WebServer) : Sent :=
  let message := "File Not Found\n\n"
  let message := message ++ "URI: "
  let message := message ++ server.uri
  let message := message ++ "\nMethod: "
  let message := message ++ (if server.method = HTTPMethod.HTTP_GET then "GET" else "POST")
  let message := message ++ "\nArguments: "
  let message := message ++ toString server.args
  let message := message ++ "\n"
  let message := HandleNotFound.loop server 0 message
  { code := 404, content_type := "text/html", content := message }


/-! ## The documents as the specification words them -/

/-- One metric line as the specification gives it:
`<metric_name>{id="<id>",mac="<mac>"}<value_or_FAILED>` and one line break. -/
def specMetricLine (name id mac value : String) : String :=
  name ++ "\x7bid=\"" ++ id ++ "\",mac=\"" ++ mac ++ "\"\x7d" ++ value ++ "\n"

/-- The value field of a metric line: the live value, or the marker `FAILED`. -/
def specValue (ok : Bool) (value : String) : String :=
  if ok then value else "FAILED"

/-- The metrics document as the specification gives it: the five lines light,
eco2, tvoc, temp, humid, where `airOk` decides eco2 and tvoc together and
`climateOk` decides temp and humid together. -/
def specMetricsDocument (cfg : Config) (st : Readings) (airOk climateOk : Bool) : String :=
  specMetricLine "light" cfg.deviceHostname cfg.macAddress (toString st.light_level_reading)
  ++ specMetricLine "eco2" cfg.deviceHostname cfg.macAddress
      (specValue airOk (toString st.eco2_reading))
  ++ specMetricLine "tvoc" cfg.deviceHostname cfg.macAddress
      (specValue airOk (toString st.tvoc_reading))
  ++ specMetricLine "temp" cfg.deviceHostname cfg.macAddress
      (specValue climateOk (cfg.floatToString st.temperature_reading))
  ++ specMetricLine "humid" cfg.deviceHostname cfg.macAddress
      (specValue climateOk (cfg.floatToString st.humidity_reading))

/-- The method name the specification gives for the 404 page. -/
def specMethodName : HTTPMethod → String
  | HTTPMethod.HTTP_GET => "GET"
  | _ => "POST"

/-- The body of the 404 page as the specification gives it. -/
def specNotFoundBody (uri : String) (method : HTTPMethod) (args : List (String × String)) :
    String :=
  "File Not Found\n\n" ++ "URI: " ++ uri ++ "\nMethod: " ++ specMethodName method
  ++ "\nArguments: " ++ toString args.length ++ "\n"
  ++ String.join (args.map fun a => " " ++ a.1 ++ ": " ++ a.2 ++ "\n")

/-- A text has no empty line: it does not start with a line break and no
line break follows another one directly. -/
def NoEmptyLine (d : List Char) : Prop :=
  d.head? ≠ some '\n' ∧ ¬ ['\n', '\n'] <:+: d

/-! ## Sample inputs -/

/-- A device identity with a stand-in for `String(float)`. -/
def sampleConfig : Config :=
  { deviceHostname := "Sensor1"
    macAddress := "01:23:45:67:89:AB"
    floatToString := fun x => toString (x.bits / 100) ++ "." ++ toString (x.bits / 10 % 10)
      ++ toString (x.bits % 10) }

/-- Static variables left by an earlier pass. -/
def sampleReadings : Readings :=
  { light_level_reading := 7, eco2_reading := 400, tvoc_reading := 0
    temperature_reading := ⟨7150⟩, humidity_reading := ⟨4025⟩ }

/-- All three sensors answer. -/
def sensorsAllGood : Sensors :=
  { lightMeter := ⟨120⟩, sgp30 := ⟨true, 570, 12⟩, sht30 := ⟨0, ⟨2050⟩, ⟨6890⟩, ⟨5500⟩⟩ }

/-- The air-quality sensor fails, light and climate answer. -/
def sensorsAirFailed : Sensors :=
  { lightMeter := ⟨120⟩, sgp30 := ⟨false, 0, 0⟩, sht30 := ⟨0, ⟨2050⟩, ⟨6890⟩, ⟨5500⟩⟩ }

/-- The climate sensor fails, light and air quality answer. -/
def sensorsClimateFailed : Sensors :=
  { lightMeter := ⟨120⟩, sgp30 := ⟨true, 570, 12⟩, sht30 := ⟨1, ⟨0⟩, ⟨0⟩, ⟨0⟩⟩ }

/-- The request `GET /foo?x=1`. -/
def sampleRequest : WebServer :=
  { uri := "/foo", method := HTTPMethod.HTTP_GET, currentArgs := [("x", "1")] }


/-- The characters of a metric line in front of its value: the metric name
and the identity tag. -/
def lineHead (name : String) (cfg : Config) : List Char :=
  (name ++ "\x7bid=\"" ++ cfg.deviceHostname ++ "\",mac=\"" ++ cfg.macAddress ++ "\"\x7d").data


/-! ## Auxiliary facts: decimal text -/

theorem digitChar_isDigit (m : Nat) (h : m < 10) : (Nat.digitChar m).isDigit = true := by
  interval_cases m <;> rfl

theorem toDigitsCore_chars (f : Nat) : ∀ (n : Nat) (acc : List Char) (c : Char),
    c ∈ Nat.toDigitsCore 10 f n acc → c.isDigit = true ∨ c ∈ acc := by
  induction f with
  | zero => intro n acc c hc; exact Or.inr (by simpa [Nat.toDigitsCore] using hc)
  | succ f ih =>
    intro n acc c hc
    simp only [Nat.toDigitsCore] at hc
    have hd : (Nat.digitChar (n % 10)).isDigit = true :=
      digitChar_isDigit _ (Nat.mod_lt _ (by decide))
    split at hc
    · rcases List.mem_cons.mp hc with h | h
      · exact Or.inl (h ▸ hd)
      · exact Or.inr h
    · rcases ih _ _ _ hc with h | h
      · exact Or.inl h
      · rcases List.mem_cons.mp h with h | h
        · exact Or.inl (h ▸ hd)
        · exact Or.inr h

theorem toDigitsCore_ne_nil (f : Nat) : ∀ (n : Nat) (acc : List Char),
    acc ≠ [] → Nat.toDigitsCore 10 f n acc ≠ [] := by
  induction f with
  | zero => intro n acc h; simpa [Nat.toDigitsCore] using h
  | succ f ih =>
    intro n acc _
    simp only [Nat.toDigitsCore]
    split
    · simp
    · exact ih _ _ (by simp)

theorem toString_data (n : Nat) : (toString n).data = Nat.toDigits 10 n := rfl

/-- Every character of the decimal text of a number is one of `0`..`9`. -/
theorem decimal_isDigit (n : Nat) (c : Char) (hc : c ∈ (toString n).data) :
    c.isDigit = true := by
  rw [toString_data] at hc
  rcases toDigitsCore_chars _ _ _ _ hc with h | h
  · exact h
  · simp at h

/-- The decimal text of a number is not empty. -/
theorem decimal_ne_nil (n : Nat) : (toString n).data ≠ [] := by
  rw [toString_data]
  unfold Nat.toDigits
  simp only [Nat.toDigitsCore]
  split
  · simp
  · exact toDigitsCore_ne_nil _ _ _ (by simp)

theorem decimal_no_break (n : Nat) : '\n' ∉ (toString n).data :=
  fun h => absurd (decimal_isDigit n _ h) (by decide)


/-! ## Auxiliary facts: lists of characters -/

/-- Two texts that agree up to and including their first occurrence of `x`
have the same part before it and the same part after it. -/
theorem split_at_first {x : Char} : ∀ (a b r r' : List Char), x ∉ a → x ∉ b →
    a ++ x :: r = b ++ x :: r' → a = b ∧ r = r'
  | [], [], r, r', _, _, h => ⟨rfl, by simpa using h⟩
  | [], z :: b, r, r', _, hb, h => by
    simp only [List.nil_append, List.cons_append, List.cons.injEq] at h
    exact absurd (h.1 ▸ List.mem_cons_self _ _) hb
  | y :: a, [], r, r', ha, _, h => by
    simp only [List.nil_append, List.cons_append, List.cons.injEq] at h
    exact absurd (h.1 ▸ List.mem_cons_self _ _) ha
  | y :: a, z :: b, r, r', ha, hb, h => by
    simp only [List.cons_append, List.cons.injEq] at h
    have ih := split_at_first a b r r' (fun m => ha (List.mem_cons_of_mem _ m))
      (fun m => hb (List.mem_cons_of_mem _ m)) h.2
    exact ⟨by rw [h.1, ih.1], ih.2⟩

theorem noEmptyLine_nil : NoEmptyLine [] := by
  refine ⟨by simp, ?_⟩
  intro h
  have := h.length_le
  simp at this

theorem no_double_break_line (R : List Char) (hR : NoEmptyLine R) :
    ∀ l : List Char, '\n' ∉ l → ¬ ['\n', '\n'] <:+: l ++ '\n' :: R
  | [], _ => by
    intro h
    rcases List.infix_cons_iff.mp h with h | h
    · have h2 := (List.cons_prefix_cons.mp h).2
      cases R with
      | nil => simpa using h2.length_le
      | cons c R => exact hR.1 (by rw [(List.cons_prefix_cons.mp h2).1]; rfl)
    · exact hR.2 h
  | c :: l, hn => by
    intro h
    rcases List.infix_cons_iff.mp h with h | h
    · exact hn ((List.cons_prefix_cons.mp h).1 ▸ List.mem_cons_self _ _)
    · exact no_double_break_line R hR l (fun m => hn (List.mem_cons_of_mem _ m)) h

/-- Putting one more non-empty, single-line text and its line break in front
keeps the text free of empty lines and adds one line break. -/
theorem noEmptyLine_line (l R : List Char) (hl : l ≠ []) (hn : '\n' ∉ l)
    (hR : NoEmptyLine R) :
    NoEmptyLine (l ++ '\n' :: R) ∧ (l ++ '\n' :: R).count '\n' = R.count '\n' + 1 := by
  refine ⟨⟨?_, no_double_break_line R hR l hn⟩, ?_⟩
  · cases l with
    | nil => exact absurd rfl hl
    | cons c l =>
      intro h
      simp only [List.cons_append, List.head?_cons, Option.some.injEq] at h
      exact hn (h ▸ List.mem_cons_self _ _)
  · rw [List.count_append, List.count_eq_zero_of_not_mem hn]
    simp


/-! ## The sampling pass -/

/-- C3 (as amended): the status of `takeAllReadings` is below 4, its bit 1 is
the outcome of the air-quality read and its bit 0 is the outcome of the
climate read; when the air read fails and the climate read succeeds the
status is 1. -/
theorem takeAllReadings_status (temp_in_c : Bool) (st st1 st2 : Readings) (hw : Sensors) :
    (takeAllReadings temp_in_c st hw).1 < 4
    ∧ (takeAllReadings temp_in_c st hw).1.testBit 1 = (takeAirReading st1 hw.sgp30).1
    ∧ (takeAllReadings temp_in_c st hw).1.testBit 0
        = (takeClimateReading temp_in_c st2 hw.sht30).1
    ∧ ((takeAirReading st1 hw.sgp30).1 = false →
        (takeClimateReading temp_in_c st2 hw.sht30).1 = true →
        (takeAllReadings temp_in_c st hw).1 = 1) := by
  unfold takeAllReadings takeLightReading takeAirReading takeClimateReading
  cases hw.sgp30.IAQmeasure <;> by_cases h : hw.sht30.get = 0 <;> simp [h, uint8] <;> decide

/-- C3 (counterexample): with the air read failing and the climate read
succeeding the status is 1, not 2; bit 0 is set although the air read failed
and bit 1 is clear although the climate read succeeded. -/
theorem takeAllReadings_status_counterexample :
    (takeAirReading sampleReadings sensorsAirFailed.sgp30).1 = false
    ∧ (takeClimateReading false sampleReadings sensorsAirFailed.sht30).1 = true
    ∧ (takeAllReadings false sampleReadings sensorsAirFailed).1 = 1
    ∧ (takeAllReadings false sampleReadings sensorsAirFailed).1 ≠ 2
    ∧ (takeAllReadings false sampleReadings sensorsAirFailed).1.testBit 0 = true
    ∧ (takeAllReadings false sampleReadings sensorsAirFailed).1.testBit 1 = false := by
  decide

/-- C7: a failed air read returns false and leaves every static variable as it
was, and so does a failed climate read; after `takeAllReadings` the variables
of a sensor whose read failed still hold their earlier values; a successful
air read returns true and changes only `eco2_reading` and `tvoc_reading`, to
the measured pair. -/
theorem failed_read_keeps_readings (temp_in_c : Bool) (st : Readings)
    (bad good : Adafruit_SGP30) (sht : SHT3X) (hwA hwC : Sensors)
    (hbad : bad.IAQmeasure = false) (hsht : sht.get ≠ 0)
    (hA : hwA.sgp30.IAQmeasure = false) (hC : hwC.sht30.get ≠ 0)
    (hgood : good.IAQmeasure = true) (he : good.eCO2 < 65536) (ht : good.TVOC < 65536) :
    takeAirReading st bad = (false, st)
    ∧ takeClimateReading temp_in_c st sht = (false, st)
    ∧ ((takeAllReadings temp_in_c st hwA).2.eco2_reading = st.eco2_reading
        ∧ (takeAllReadings temp_in_c st hwA).2.tvoc_reading = st.tvoc_reading)
    ∧ ((takeAllReadings temp_in_c st hwC).2.temperature_reading = st.temperature_reading
        ∧ (takeAllReadings temp_in_c st hwC).2.humidity_reading = st.humidity_reading)
    ∧ takeAirReading st good
        = (true, { st with eco2_reading := good.eCO2, tvoc_reading := good.TVOC }) := by
  refine ⟨?_, ?_, ?_, ?_, ?_⟩
  · simp [takeAirReading, hbad]
  · simp [takeClimateReading, hsht]
  · simp only [takeAllReadings, takeLightReading, takeAirReading, hA]
    by_cases h : hwA.sht30.get = 0 <;> cases temp_in_c <;> simp [takeClimateReading, h]
  · simp only [takeAllReadings, takeLightReading, takeClimateReading, hC]
    cases h : hwC.sgp30.IAQmeasure <;> simp [takeAirReading, h]
  · simp [takeAirReading, hgood, uint16, Nat.mod_eq_of_lt he, Nat.mod_eq_of_lt ht]

/-- C7 at the sample inputs: a failing air sensor, a failing climate sensor
and an air sensor that answers 570 and 12. -/
theorem failed_read_keeps_readings_witness :
    takeAirReading sampleReadings sensorsAirFailed.sgp30 = (false, sampleReadings)
    ∧ takeClimateReading true sampleReadings sensorsClimateFailed.sht30
        = (false, sampleReadings)
    ∧ ((takeAllReadings true sampleReadings sensorsAirFailed).2.eco2_reading
          = sampleReadings.eco2_reading
        ∧ (takeAllReadings true sampleReadings sensorsAirFailed).2.tvoc_reading
          = sampleReadings.tvoc_reading)
    ∧ ((takeAllReadings true sampleReadings sensorsClimateFailed).2.temperature_reading
          = sampleReadings.temperature_reading
        ∧ (takeAllReadings true sampleReadings sensorsClimateFailed).2.humidity_reading
          = sampleReadings.humidity_reading)
    ∧ takeAirReading sampleReadings sensorsAllGood.sgp30
        = (true, { sampleReadings with
            eco2_reading := sensorsAllGood.sgp30.eCO2
            tvoc_reading := sensorsAllGood.sgp30.TVOC }) :=
  failed_read_keeps_readings true sampleReadings sensorsAirFailed.sgp30 sensorsAllGood.sgp30
    sensorsClimateFailed.sht30 sensorsAirFailed sensorsClimateFailed
    (by decide) (by decide) (by decide) (by decide) (by decide) (by decide) (by decide)

/-- C8: a successful climate read returns true, stores `cTemp` when
`temp_in_c` is true and `fTemp` when it is false, stores the measured
humidity and changes nothing else; the pass made by `generateDataPage` is
`takeAllReadings` with `temp_in_c = false`, so it stores `fTemp`. -/
theorem takeClimateReading_success (cfg : Config) (temp_in_c : Bool) (st : Readings)
    (hw : Sensors) (h : hw.sht30.get = 0) :
    takeClimateReading temp_in_c st hw.sht30
      = (true, { st with
          temperature_reading := if temp_in_c then hw.sht30.cTemp else hw.sht30.fTemp
          humidity_reading := hw.sht30.humidity })
    ∧ (generateDataPage cfg st hw).2 = (takeAllReadings false st hw).2
    ∧ (generateDataPage cfg st hw).2.temperature_reading = hw.sht30.fTemp
    ∧ (generateDataPage cfg st hw).2.humidity_reading = hw.sht30.humidity := by
  refine ⟨?_, rfl, ?_, ?_⟩
  · cases temp_in_c <;> simp [takeClimateReading, h]
  · simp [generateDataPage, takeAllReadings, takeClimateReading, h]
  · simp [generateDataPage, takeAllReadings, takeClimateReading, h]

/-- C8 at the sample inputs, with all sensors answering. -/
theorem takeClimateReading_success_witness :
    takeClimateReading true sampleReadings sensorsAllGood.sht30
      = (true, { sampleReadings with
          temperature_reading :=
            if true = true then sensorsAllGood.sht30.cTemp else sensorsAllGood.sht30.fTemp
          humidity_reading := sensorsAllGood.sht30.humidity })
    ∧ (generateDataPage sampleConfig sampleReadings sensorsAllGood).2
        = (takeAllReadings false sampleReadings sensorsAllGood).2
    ∧ (generateDataPage sampleConfig sampleReadings sensorsAllGood).2.temperature_reading
        = sensorsAllGood.sht30.fTemp
    ∧ (generateDataPage sampleConfig sampleReadings sensorsAllGood).2.humidity_reading
        = sensorsAllGood.sht30.humidity :=
  takeClimateReading_success sampleConfig true sampleReadings sensorsAllGood (by decide)


/-! ## The 404 page -/

theorem join_cons (x : String) (xs : List String) :
    String.join (x :: xs) = x ++ String.join xs := by
  apply String.ext
  simp [String.data_join]

theorem loop_eq (server : WebServer) : ∀ (k i : Nat) (message : String),
    server.args - i = k →
    HandleNotFound.loop server i message
      = message ++ String.join ((server.currentArgs.drop i).map
          fun a => " " ++ a.1 ++ ": " ++ a.2 ++ "\n")
  | 0, i, message, hk => by
    have hi : server.currentArgs.length ≤ i := by
      simp only [WebServer.args] at hk; omega
    rw [HandleNotFound.loop, if_neg (by simp only [WebServer.args]; omega),
      List.drop_of_length_le hi]
    apply String.ext
    simp [String.data_join]
  | k + 1, i, message, hk => by
    have hi : i < server.currentArgs.length := by
      simp only [WebServer.args] at hk; omega
    rw [HandleNotFound.loop, if_pos (by simpa only [WebServer.args] using hi),
      loop_eq server k (i + 1) _ (by omega), List.drop_eq_getElem_cons hi, List.map_cons,
      join_cons]
    have hget : server.currentArgs.get? i = some server.currentArgs[i] := by
      simp [List.getElem?_eq_getElem hi]
    simp only [WebServer.argName, WebServer.arg, hget, String.append_assoc]

/-- C9: the 404 handler sends status 404, content type `text/html` and the
body `File Not Found`, an empty line, the URI, the method (`GET` for GET,
`POST` for every other method), the number of arguments and one line
` name: value` per argument in order; for `GET /foo?x=1` the body is the six
lines `File Not Found`, an empty one, `URI: /foo`, `Method: GET`,
`Arguments: 1` and ` x: 1`. -/
theorem HandleNotFound_response :
    (∀ server : WebServer,
      HandleNotFound server
        = { code := 404, content_type := "text/html",
            content := specNotFoundBody server.uri server.method server.currentArgs })
    ∧ (HandleNotFound sampleRequest).content
        = String.join (["File Not Found", "", "URI: /foo", "Method: GET", "Arguments: 1",
            " x: 1"].map fun l => l ++ "\n") := by
  have hall : ∀ server : WebServer,
      HandleNotFound server
        = { code := 404, content_type := "text/html",
            content := specNotFoundBody server.uri server.method server.currentArgs } := by
    intro server
    have hm : (if server.method = HTTPMethod.HTTP_GET then "GET" else "POST")
        = specMethodName server.method := by
      cases server.method <;> rfl
    simp only [HandleNotFound, specNotFoundBody, loop_eq server _ 0 _ rfl, List.drop_zero, hm,
      WebServer.args]
  refine ⟨hall, ?_⟩
  rw [hall]
  rfl


/-! ## The metrics page -/

theorem and_one_ne_zero (s : Nat) : s &&& 1 ≠ 0 ↔ s.testBit 0 = true := by
  rw [Nat.and_one_is_mod, Nat.testBit_zero]
  simp only [decide_eq_true_eq]
  omega

theorem and_two_ne_zero (s : Nat) : s &&& (1 <<< 1) ≠ 0 ↔ s.testBit 1 = true := by
  have h2 : (1 <<< 1 : Nat) = 2 := rfl
  have hbit : ∀ i, (s &&& 2).testBit i = (s.testBit i && decide (1 = i)) := by
    intro i
    rw [Nat.testBit_and]
    have : Nat.testBit 2 i = decide (1 = i) := @Nat.testBit_two_pow 1 i
    rw [this]
  rw [h2]
  constructor
  · intro h
    obtain ⟨i, hi⟩ := Nat.ne_zero_implies_bit_true h
    rw [hbit] at hi
    simp only [Bool.and_eq_true, decide_eq_true_eq] at hi
    rw [hi.2]; exact hi.1
  · intro h h0
    have := hbit 1
    rw [h0, h] at this
    simp at this

/-- The formatting step writes the document of the specification, with the
two flags read from bit 0 and bit 1 of the status. -/
theorem formatDataPage_eq (cfg : Config) (st : Readings) (s : Nat) :
    formatDataPage cfg st s = specMetricsDocument cfg st (s.testBit 0) (s.testBit 1) := by
  have hF : "FAILED\n" = "FAILED" ++ "\n" := rfl
  have h0 : (s &&& 1 ≠ 0) = (s.testBit 0 = true) := propext (and_one_ne_zero s)
  have h1 : (s &&& (1 <<< 1) ≠ 0) = (s.testBit 1 = true) := propext (and_two_ne_zero s)
  unfold formatDataPage specMetricsDocument specMetricLine specValue idString
  simp only [h0, h1]
  cases s.testBit 0 <;> cases s.testBit 1 <;>
    simp only [if_true, if_false, Bool.false_eq_true, hF] <;>
    apply String.ext <;>
    simp only [String.data_append, List.append_assoc] <;> rfl


theorem specMetricsDocument_data (cfg : Config) (st : Readings) (a c : Bool) :
    (specMetricsDocument cfg st a c).data
      = lineHead "light" cfg ++ ((toString st.light_level_reading).data ++ '\n' ::
        (lineHead "eco2" cfg ++ ((specValue a (toString st.eco2_reading)).data ++ '\n' ::
        (lineHead "tvoc" cfg ++ ((specValue a (toString st.tvoc_reading)).data ++ '\n' ::
        (lineHead "temp" cfg
          ++ ((specValue c (cfg.floatToString st.temperature_reading)).data ++ '\n' ::
        (lineHead "humid" cfg
          ++ ((specValue c (cfg.floatToString st.humidity_reading)).data ++ ['\n']))))))))) := by
  have hn : "\n".data = ['\n'] := rfl
  simp only [specMetricsDocument, specMetricLine, lineHead, String.data_append,
    List.append_assoc, hn, List.singleton_append, List.cons_append, List.nil_append]

theorem lineHead_ne_nil (name : String) (cfg : Config) : lineHead name cfg ≠ [] := by
  intro h
  simp only [lineHead, String.data_append, List.append_eq_nil] at h
  exact absurd h.2 (by decide)

theorem lineHead_no_break (name : String) (cfg : Config) (hname : '\n' ∉ name.data)
    (hid : '\n' ∉ cfg.deviceHostname.data) (hmac : '\n' ∉ cfg.macAddress.data) :
    '\n' ∉ lineHead name cfg := by
  simp only [lineHead, String.data_append, List.mem_append, not_or]
  refine ⟨⟨⟨⟨⟨hname, ?_⟩, hid⟩, ?_⟩, hmac⟩, ?_⟩ <;> decide

theorem specValue_no_break (ok : Bool) (v : String) (hv : '\n' ∉ v.data) :
    '\n' ∉ (specValue ok v).data := by
  cases ok
  · simp only [specValue, Bool.false_eq_true, if_false]; decide
  · simpa only [specValue, if_true] using hv

/-- Five non-empty texts without a line break, each followed by a line
break, make a text with five line breaks, ending in one, with no empty line. -/
theorem five_lines (l1 l2 l3 l4 l5 : List Char)
    (h1 : l1 ≠ [] ∧ '\n' ∉ l1) (h2 : l2 ≠ [] ∧ '\n' ∉ l2) (h3 : l3 ≠ [] ∧ '\n' ∉ l3)
    (h4 : l4 ≠ [] ∧ '\n' ∉ l4) (h5 : l5 ≠ [] ∧ '\n' ∉ l5) :
    (l1 ++ '\n' :: (l2 ++ '\n' :: (l3 ++ '\n' :: (l4 ++ '\n' :: (l5 ++ ['\n']))))).count '\n' = 5
    ∧ (l1 ++ '\n' :: (l2 ++ '\n' :: (l3 ++ '\n' :: (l4 ++ '\n' :: (l5 ++ ['\n']))))).getLast?
        = some '\n'
    ∧ NoEmptyLine (l1 ++ '\n' :: (l2 ++ '\n' :: (l3 ++ '\n' :: (l4 ++ '\n' :: (l5 ++ ['\n']))))) := by
  have s5 := noEmptyLine_line l5 [] h5.1 h5.2 noEmptyLine_nil
  have s4 := noEmptyLine_line l4 _ h4.1 h4.2 s5.1
  have s3 := noEmptyLine_line l3 _ h3.1 h3.2 s4.1
  have s2 := noEmptyLine_line l2 _ h2.1 h2.2 s3.1
  have s1 := noEmptyLine_line l1 _ h1.1 h1.2 s2.1
  refine ⟨?_, ?_, s1.1⟩
  · rw [s1.2, s2.2, s3.2, s4.2, s5.2]; rfl
  · have : l1 ++ '\n' :: (l2 ++ '\n' :: (l3 ++ '\n' :: (l4 ++ '\n' :: (l5 ++ ['\n']))))
        = (l1 ++ '\n' :: (l2 ++ '\n' :: (l3 ++ '\n' :: (l4 ++ '\n' :: l5)))) ++ ['\n'] := by
      simp
    rw [this, List.getLast?_append]
    rfl

theorem specMetricsDocument_lines (cfg : Config) (st : Readings) (a c : Bool)
    (hid : '\n' ∉ cfg.deviceHostname.data) (hmac : '\n' ∉ cfg.macAddress.data)
    (hfmt : ∀ x, '\n' ∉ (cfg.floatToString x).data) :
    (specMetricsDocument cfg st a c).data.count '\n' = 5
    ∧ (specMetricsDocument cfg st a c).data.getLast? = some '\n'
    ∧ NoEmptyLine (specMetricsDocument cfg st a c).data := by
  have hline : ∀ (name v : String), '\n' ∉ name.data → '\n' ∉ v.data →
      lineHead name cfg ++ v.data ≠ [] ∧ '\n' ∉ lineHead name cfg ++ v.data := by
    intro name v hname hv
    refine ⟨?_, ?_⟩
    · intro h
      exact lineHead_ne_nil name cfg (List.append_eq_nil.mp h).1
    · intro h
      rcases List.mem_append.mp h with h | h
      · exact lineHead_no_break name cfg hname hid hmac h
      · exact hv h
  have key := five_lines _ _ _ _ _
    (hline "light" (toString st.light_level_reading) (by decide) (decimal_no_break _))
    (hline "eco2" (specValue a (toString st.eco2_reading)) (by decide)
      (specValue_no_break _ _ (decimal_no_break _)))
    (hline "tvoc" (specValue a (toString st.tvoc_reading)) (by decide)
      (specValue_no_break _ _ (decimal_no_break _)))
    (hline "temp" (specValue c (cfg.floatToString st.temperature_reading)) (by decide)
      (specValue_no_break _ _ (hfmt _)))
    (hline "humid" (specValue c (cfg.floatToString st.humidity_reading)) (by decide)
      (specValue_no_break _ _ (hfmt _)))
  rw [specMetricsDocument_data]
  simpa only [List.append_assoc] using key

/-- C4: for every store, status and identity the formatting step of
`generateDataPage` returns the five lines light, eco2, tvoc, temp, humid in
this order, each `<name>{id="<id>",mac="<mac>"}<value or FAILED>` and a line
break; the values are the decimal text of the stored integers and the
`String(float)` text of the stored floats; FAILED replaces eco2 and tvoc
together when bit 0 of the status is clear and temp and humid together when
bit 1 is clear. -/
theorem formatDataPage_five_metric_lines (cfg : Config) (st : Readings) (sensorStatus : Nat) :
    formatDataPage cfg st sensorStatus
      = specMetricLine "light" cfg.deviceHostname cfg.macAddress
          (toString st.light_level_reading)
        ++ specMetricLine "eco2" cfg.deviceHostname cfg.macAddress
          (if sensorStatus.testBit 0 then toString st.eco2_reading else "FAILED")
        ++ specMetricLine "tvoc" cfg.deviceHostname cfg.macAddress
          (if sensorStatus.testBit 0 then toString st.tvoc_reading else "FAILED")
        ++ specMetricLine "temp" cfg.deviceHostname cfg.macAddress
          (if sensorStatus.testBit 1 then cfg.floatToString st.temperature_reading
            else "FAILED")
        ++ specMetricLine "humid" cfg.deviceHostname cfg.macAddress
          (if sensorStatus.testBit 1 then cfg.floatToString st.humidity_reading
            else "FAILED") :=
  formatDataPage_eq cfg st sensorStatus

/-- C5: for every store and all sensor outcomes, when the identifier, the MAC
address and the text of a float contain no line break, the page returned by
`generateDataPage` has exactly five line breaks, ends with a line break, does
not start with one and has no two line breaks in a row. -/
theorem generateDataPage_five_lines (cfg : Config) (st : Readings) (hw : Sensors)
    (hid : '\n' ∉ cfg.deviceHostname.data) (hmac : '\n' ∉ cfg.macAddress.data)
    (hfmt : ∀ x, '\n' ∉ (cfg.floatToString x).data) :
    (generateDataPage cfg st hw).1.data.count '\n' = 5
    ∧ (generateDataPage cfg st hw).1.data.getLast? = some '\n'
    ∧ (generateDataPage cfg st hw).1.data.head? ≠ some '\n'
    ∧ ¬ ['\n', '\n'] <:+: (generateDataPage cfg st hw).1.data := by
  have h := specMetricsDocument_lines cfg (takeAllReadings false st hw).2
    ((takeAllReadings false st hw).1.testBit 0) ((takeAllReadings false st hw).1.testBit 1)
    hid hmac hfmt
  rw [← formatDataPage_eq] at h
  exact ⟨h.1, h.2.1, h.2.2.1, h.2.2.2⟩


theorem decimal_ne_failed (n : Nat) : toString n ≠ "FAILED" := by
  intro h
  have hF : 'F' ∈ (toString n).data := by rw [h]; decide
  exact absurd (decimal_isDigit n _ hF) (by decide)

theorem specValue_flag (v : String) (hv : v ≠ "FAILED") (a a' : Bool)
    (h : (specValue a v).data = (specValue a' v).data) : a = a' := by
  cases a <;> cases a' <;> simp only [specValue, Bool.false_eq_true, if_true, if_false] at h
  · rfl
  · exact absurd (String.ext h.symm) hv
  · exact absurd (String.ext h) hv
  · rfl

/-- The document of the specification determines its two flags, as long as
the text of a float is a single line and is never the marker itself. -/
theorem specMetricsDocument_inj (cfg : Config) (st : Readings)
    (hfmt : ∀ x, '\n' ∉ (cfg.floatToString x).data ∧ cfg.floatToString x ≠ "FAILED")
    (a c a' c' : Bool)
    (h : specMetricsDocument cfg st a c = specMetricsDocument cfg st a' c') :
    a = a' ∧ c = c' := by
  have hd := congrArg String.data h
  rw [specMetricsDocument_data, specMetricsDocument_data] at hd
  have e1 := (split_at_first _ _ _ _ (decimal_no_break _) (decimal_no_break _)
    (List.append_cancel_left hd)).2
  have e2 := split_at_first _ _ _ _ (specValue_no_break a _ (decimal_no_break _))
    (specValue_no_break a' _ (decimal_no_break _)) (List.append_cancel_left e1)
  have e3 := (split_at_first _ _ _ _ (specValue_no_break a _ (decimal_no_break _))
    (specValue_no_break a' _ (decimal_no_break _)) (List.append_cancel_left e2.2)).2
  have e4 := split_at_first _ _ _ _ (specValue_no_break c _ (hfmt _).1)
    (specValue_no_break c' _ (hfmt _).1) (List.append_cancel_left e3)
  exact ⟨specValue_flag _ (decimal_ne_failed _) a a' e2.1,
    specValue_flag _ (hfmt _).2 c c' e4.1⟩

theorem status_of_bits (t : Nat) (ht : t < 4) :
    t = (t.testBit 0).toNat + 2 * (t.testBit 1).toNat := by
  interval_cases t <;> rfl

theorem pass_light (temp_in_c : Bool) (st : Readings) (hw : Sensors) :
    (takeAllReadings temp_in_c st hw).2.light_level_reading
      = uint16 hw.lightMeter.readLightLevel := by
  simp only [takeAllReadings, takeLightReading, takeAirReading, takeClimateReading]
  cases hw.sgp30.IAQmeasure <;> by_cases h : hw.sht30.get = 0 <;> cases temp_in_c <;> simp [h]

/-- C6: in every sampling pass the page of `generateDataPage` starts with the
line `light{id="<id>",mac="<mac>"}` followed by the decimal digits of the
light value just read (at least one character, all of them `0`..`9`), never
by `FAILED`, and `light_level_reading` holds the value the driver returned. -/
theorem generateDataPage_light_line (cfg : Config) (st : Readings) (hw : Sensors)
    (hlux : hw.lightMeter.readLightLevel < 65536) :
    (∃ rest, (generateDataPage cfg st hw).1
        = specMetricLine "light" cfg.deviceHostname cfg.macAddress
            (toString hw.lightMeter.readLightLevel) ++ rest)
    ∧ (toString hw.lightMeter.readLightLevel).data ≠ []
    ∧ (∀ c ∈ (toString hw.lightMeter.readLightLevel).data, c.isDigit = true)
    ∧ (∀ rest, (generateDataPage cfg st hw).1
        ≠ "light" ++ "\x7bid=\"" ++ cfg.deviceHostname ++ "\",mac=\"" ++ cfg.macAddress
            ++ "\"\x7d" ++ "FAILED" ++ rest)
    ∧ (generateDataPage cfg st hw).2.light_level_reading = hw.lightMeter.readLightLevel := by
  have hl : (takeAllReadings false st hw).2.light_level_reading
      = hw.lightMeter.readLightLevel := by
    rw [pass_light, uint16, Nat.mod_eq_of_lt hlux]
  have hpage : (generateDataPage cfg st hw).1
      = specMetricsDocument cfg (takeAllReadings false st hw).2
          ((takeAllReadings false st hw).1.testBit 0)
          ((takeAllReadings false st hw).1.testBit 1) := formatDataPage_eq _ _ _
  refine ⟨?_, decimal_ne_nil _, decimal_isDigit _, ?_, hl⟩
  · rw [hpage, specMetricsDocument, hl]
    simp only [String.append_assoc]
    exact ⟨_, rfl⟩
  · intro rest h
    have hd := congrArg String.data h
    rw [hpage, specMetricsDocument_data, hl] at hd
    have hr : ("light" ++ "\x7bid=\"" ++ cfg.deviceHostname ++ "\",mac=\"" ++ cfg.macAddress
        ++ "\"\x7d" ++ "FAILED" ++ rest).data
        = lineHead "light" cfg ++ ('F' :: ("AILED".data ++ rest.data)) := by
      simp only [lineHead, String.data_append, List.append_assoc]
      rfl
    rw [hr] at hd
    have hc := List.append_cancel_left hd
    cases hdig : (toString hw.lightMeter.readLightLevel).data with
    | nil => exact decimal_ne_nil _ hdig
    | cons d ds =>
      rw [hdig] at hc
      simp only [List.cons_append, List.cons.injEq] at hc
      have := decimal_isDigit hw.lightMeter.readLightLevel d (by rw [hdig]; exact List.mem_cons_self _ _)
      rw [hc.1] at this
      exact absurd this (by decide)

/-- C6 at the sample inputs, with the light sensor answering 120. -/
theorem generateDataPage_light_line_witness :
    (∃ rest, (generateDataPage sampleConfig sampleReadings sensorsAirFailed).1
        = specMetricLine "light" sampleConfig.deviceHostname sampleConfig.macAddress
            (toString sensorsAirFailed.lightMeter.readLightLevel) ++ rest)
    ∧ (toString sensorsAirFailed.lightMeter.readLightLevel).data ≠ []
    ∧ (∀ c ∈ (toString sensorsAirFailed.lightMeter.readLightLevel).data, c.isDigit = true)
    ∧ (∀ rest, (generateDataPage sampleConfig sampleReadings sensorsAirFailed).1
        ≠ "light" ++ "\x7bid=\"" ++ sampleConfig.deviceHostname ++ "\",mac=\""
            ++ sampleConfig.macAddress ++ "\"\x7d" ++ "FAILED" ++ rest)
    ∧ (generateDataPage sampleConfig sampleReadings sensorsAirFailed).2.light_level_reading
        = sensorsAirFailed.lightMeter.readLightLevel :=
  generateDataPage_light_line sampleConfig sampleReadings sensorsAirFailed (by decide)

/-- C10: in the formatting step, for a status below 4, the page is the
document with flags `airOk` and `climateOk` exactly when bit 0 of the status
is `airOk` and bit 1 is `climateOk`: bit 0 set means eco2 and tvoc carry
their values and bit 0 clear means both carry FAILED, bit 1 does the same for
temp and humid, independently, and different status values give different
pages. -/
theorem formatDataPage_failed_pattern (cfg : Config) (st : Readings) (s : Nat) (hs : s < 4)
    (hfmt : ∀ x, '\n' ∉ (cfg.floatToString x).data ∧ cfg.floatToString x ≠ "FAILED") :
    (∀ airOk climateOk : Bool,
      formatDataPage cfg st s = specMetricsDocument cfg st airOk climateOk
        ↔ (s.testBit 0 = airOk ∧ s.testBit 1 = climateOk))
    ∧ (s.testBit 0 = true
        ↔ ∃ climateOk, formatDataPage cfg st s = specMetricsDocument cfg st true climateOk)
    ∧ (s.testBit 0 = false
        ↔ ∃ climateOk, formatDataPage cfg st s = specMetricsDocument cfg st false climateOk)
    ∧ (s.testBit 1 = true
        ↔ ∃ airOk, formatDataPage cfg st s = specMetricsDocument cfg st airOk true)
    ∧ (s.testBit 1 = false
        ↔ ∃ airOk, formatDataPage cfg st s = specMetricsDocument cfg st airOk false)
    ∧ (∀ s', s' < 4 → formatDataPage cfg st s' = formatDataPage cfg st s → s' = s) := by
  have key : ∀ (t : Nat) (a c : Bool),
      formatDataPage cfg st t = specMetricsDocument cfg st a c
        ↔ (t.testBit 0 = a ∧ t.testBit 1 = c) := by
    intro t a c
    rw [formatDataPage_eq]
    constructor
    · exact specMetricsDocument_inj cfg st hfmt _ _ _ _
    · rintro ⟨h0, h1⟩
      rw [h0, h1]
  refine ⟨key s, ?_, ?_, ?_, ?_, ?_⟩
  · exact ⟨fun h => ⟨s.testBit 1, (key s _ _).mpr ⟨h, rfl⟩⟩,
      fun ⟨_, h⟩ => ((key s _ _).mp h).1⟩
  · exact ⟨fun h => ⟨s.testBit 1, (key s _ _).mpr ⟨h, rfl⟩⟩,
      fun ⟨_, h⟩ => ((key s _ _).mp h).1⟩
  · exact ⟨fun h => ⟨s.testBit 0, (key s _ _).mpr ⟨rfl, h⟩⟩,
      fun ⟨_, h⟩ => ((key s _ _).mp h).2⟩
  · exact ⟨fun h => ⟨s.testBit 0, (key s _ _).mpr ⟨rfl, h⟩⟩,
      fun ⟨_, h⟩ => ((key s _ _).mp h).2⟩
  · intro s' hs' h
    rw [formatDataPage_eq cfg st s] at h
    have hb := (key s' _ _).mp h
    rw [status_of_bits s' hs', status_of_bits s hs, hb.1, hb.2]


/-! ## The sample rendering of floats -/

theorem sampleConfig_float_chars (x : FloatVal) (c : Char)
    (hc : c ∈ (sampleConfig.floatToString x).data) : c.isDigit = true ∨ c = '.' := by
  have hdot : ".".data = ['.'] := rfl
  simp only [sampleConfig, String.data_append, List.mem_append, hdot, List.mem_singleton] at hc
  rcases hc with ((h | h) | h) | h
  · exact Or.inl (decimal_isDigit _ _ h)
  · exact Or.inr h
  · exact Or.inl (decimal_isDigit _ _ h)
  · exact Or.inl (decimal_isDigit _ _ h)

theorem sampleConfig_float_text (x : FloatVal) :
    '\n' ∉ (sampleConfig.floatToString x).data ∧ sampleConfig.floatToString x ≠ "FAILED" := by
  constructor
  · intro h
    rcases sampleConfig_float_chars x _ h with h | h
    · exact absurd h (by decide)
    · exact absurd h (by decide)
  · intro h
    have hF : 'F' ∈ (sampleConfig.floatToString x).data := by rw [h]; decide
    rcases sampleConfig_float_chars x _ hF with h | h
    · exact absurd h (by decide)
    · exact absurd h (by decide)

/-! ## The page at the sample inputs -/

/-- C5 at the sample inputs, with all sensors answering. -/
theorem generateDataPage_five_lines_witness :
    (generateDataPage sampleConfig sampleReadings sensorsAllGood).1.data.count '\n' = 5
    ∧ (generateDataPage sampleConfig sampleReadings sensorsAllGood).1.data.getLast? = some '\n'
    ∧ (generateDataPage sampleConfig sampleReadings sensorsAllGood).1.data.head? ≠ some '\n'
    ∧ ¬ ['\n', '\n'] <:+: (generateDataPage sampleConfig sampleReadings sensorsAllGood).1.data :=
  generateDataPage_five_lines sampleConfig sampleReadings sensorsAllGood (by decide) (by decide)
    (fun x => (sampleConfig_float_text x).1)

/-- C10 at the sample store and status 1. -/
theorem formatDataPage_failed_pattern_witness :
    (∀ airOk climateOk : Bool,
      formatDataPage sampleConfig sampleReadings 1
          = specMetricsDocument sampleConfig sampleReadings airOk climateOk
        ↔ (Nat.testBit 1 0 = airOk ∧ Nat.testBit 1 1 = climateOk))
    ∧ (Nat.testBit 1 0 = true
        ↔ ∃ climateOk, formatDataPage sampleConfig sampleReadings 1
            = specMetricsDocument sampleConfig sampleReadings true climateOk)
    ∧ (Nat.testBit 1 0 = false
        ↔ ∃ climateOk, formatDataPage sampleConfig sampleReadings 1
            = specMetricsDocument sampleConfig sampleReadings false climateOk)
    ∧ (Nat.testBit 1 1 = true
        ↔ ∃ airOk, formatDataPage sampleConfig sampleReadings 1
            = specMetricsDocument sampleConfig sampleReadings airOk true)
    ∧ (Nat.testBit 1 1 = false
        ↔ ∃ airOk, formatDataPage sampleConfig sampleReadings 1
            = specMetricsDocument sampleConfig sampleReadings airOk false)
    ∧ (∀ s', s' < 4 → formatDataPage sampleConfig sampleReadings s'
          = formatDataPage sampleConfig sampleReadings 1 → s' = 1) :=
  formatDataPage_failed_pattern sampleConfig sampleReadings 1 (by decide)
    sampleConfig_float_text

/-- C1 (failing input): the air-quality read fails and the climate read
succeeds; the status is 1, and the page carries the earlier eco2 and tvoc
values 400 and 0 as numbers and FAILED for temp and humid, although the
climate values 68.90 and 55.00 were stored in this pass. -/
theorem generateDataPage_air_failed_page :
    (takeAirReading sampleReadings sensorsAirFailed.sgp30).1 = false
    ∧ (takeClimateReading false sampleReadings sensorsAirFailed.sht30).1 = true
    ∧ (takeAllReadings false sampleReadings sensorsAirFailed).1 = 1
    ∧ (generateDataPage sampleConfig sampleReadings sensorsAirFailed).1
        = "light\x7bid=\"Sensor1\",mac=\"01:23:45:67:89:AB\"\x7d120\n"
          ++ "eco2\x7bid=\"Sensor1\",mac=\"01:23:45:67:89:AB\"\x7d400\n"
          ++ "tvoc\x7bid=\"Sensor1\",mac=\"01:23:45:67:89:AB\"\x7d0\n"
          ++ "temp\x7bid=\"Sensor1\",mac=\"01:23:45:67:89:AB\"\x7dFAILED\n"
          ++ "humid\x7bid=\"Sensor1\",mac=\"01:23:45:67:89:AB\"\x7dFAILED\n"
    ∧ (generateDataPage sampleConfig sampleReadings sensorsAirFailed).2.temperature_reading
        = ⟨6890⟩ :=
  ⟨rfl, rfl, rfl, rfl, rfl⟩

/-- C2 (failing input): the climate read fails and the air-quality read
succeeds; the status is 2, and the page carries the earlier temperature and
humidity 71.50 and 40.25 as numbers and FAILED for eco2 and tvoc, although
the air values 570 and 12 were stored in this pass. -/
theorem generateDataPage_climate_failed_page :
    (takeClimateReading false sampleReadings sensorsClimateFailed.sht30).1 = false
    ∧ (takeAirReading sampleReadings sensorsClimateFailed.sgp30).1 = true
    ∧ (takeAllReadings false sampleReadings sensorsClimateFailed).1 = 2
    ∧ (generateDataPage sampleConfig sampleReadings sensorsClimateFailed).1
        = "light\x7bid=\"Sensor1\",mac=\"01:23:45:67:89:AB\"\x7d120\n"
          ++ "eco2\x7bid=\"Sensor1\",mac=\"01:23:45:67:89:AB\"\x7dFAILED\n"
          ++ "tvoc\x7bid=\"Sensor1\",mac=\"01:23:45:67:89:AB\"\x7dFAILED\n"
          ++ "temp\x7bid=\"Sensor1\",mac=\"01:23:45:67:89:AB\"\x7d71.50\n"
          ++ "humid\x7bid=\"Sensor1\",mac=\"01:23:45:67:89:AB\"\x7d40.25\n"
    ∧ (generateDataPage sampleConfig sampleReadings sensorsClimateFailed).2.eco2_reading = 570 :=
  ⟨rfl, rfl, rfl, rfl, rfl⟩

end ClimateSensor
